import Mathlib

/-!
Shallow embedding of the portascrape library (repository ggorlen/portascrape).

The repository snapshot contains several revisions of the single library file:
  * src/portascrape.js        -- revision exposing waitForFunction (namespace Portascrape below)
  * src/unnamed/part_002      -- revision exposing wait / $remove   (namespace Part002 below)
  * src/unnamed/part_003      -- latest revision of the same file   (namespace Part003 below)
Each namespace embeds the functions of the corresponding revision, translated
line by line from the JavaScript source.  Machine-level JavaScript values are
modelled by the inductive JSVal; options objects are association lists in
insertion order, matching for-in enumeration over objects built from literals.
-/

/-- JavaScript runtime values relevant to the library: strings, numbers,
RegExp objects, booleans, null and undefined. -/
inductive JSVal where
  | vstr (s : String)
  | vnum (n : Int)
  | vregexp (source : String)
  | vbool (b : Bool)
  | vnull
  | vundef
deriving DecidableEq, Repr

/-- JavaScript truthiness of a value (`if (result)`): empty string, zero,
false, null and undefined are falsy; every other value is truthy. -/
def jsTruthy : JSVal → Bool
  | .vstr s => decide (s ≠ "")
  | .vnum n => decide (n ≠ 0)
  | .vregexp _ => true
  | .vbool b => b
  | .vnull => false
  | .vundef => false

/-- `typeof v === "string"`. -/
def isString : JSVal → Bool
  | .vstr _ => true
  | _ => false

/-- `v instanceof RegExp`. -/
def isRegExp : JSVal → Bool
  | .vregexp _ => true
  | _ => false

/-- An options object as passed to validateOptions: own enumerable keys with
their values, in insertion order (the order for-in visits string keys). -/
abbrev RawOptions := List (String × JSVal)

/-- `pat.isPrefixOf l || ...` scan: does `pat` occur as a contiguous
subsequence of `l`?  Models `String.prototype.indexOf(pat) > -1` and
`/pat/.test(s)` for a regex that is a plain literal string. -/
def listHasSub (pat : List Char) : List Char → Bool
  | [] => pat.isEmpty
  | c :: rest => pat.isPrefixOf (c :: rest) || listHasSub pat rest

/-- Substring test on strings (JavaScript `indexOf(pat) > -1`). -/
def strHasSub (pat s : String) : Bool := listHasSub pat.toList s.toList

/-- Drop leading and trailing whitespace from a character list. -/
def trimChars (l : List Char) : List Char :=
  ((l.dropWhile Char.isWhitespace).reverse.dropWhile Char.isWhitespace).reverse

/-- `String.prototype.trim`: strip surrounding whitespace. -/
def jsTrim (s : String) : String := ⟨trimChars s.data⟩

/-- The errors validateOptions can throw, kept structural: the key is carried
by the constructor instead of being spliced into a message string. -/
inductive VError where
  | invalidOption (key : String)
  | mustBeString (key : String)
  | mustBeRegExp (key : String)
  | mustBeStringOrRegExp (key : String)
  | conflictingMatchers
deriving DecidableEq, Repr

namespace Portascrape

/-- src/portascrape.js lines 247-253. -/
def validKeys : List String :=
  ["timeout", "polling", "exactText", "containsText", "matches"]

/-- src/portascrape.js line 254. -/
def textOptions : List String := ["exactText", "containsText", "matches"]

/-- The for-in loop of validateOptions (src/portascrape.js lines 257-278),
with the running providedTextOptions counter as an argument.  Per key: unknown
key throws; a text option increments the counter and must be a string or a
RegExp; after each key, a counter above one throws the conflict error. -/
def validateGo : RawOptions → Nat → Option VError
  | [], _ => none
  | (key, v) :: rest, count =>
    if ¬ (validKeys.contains key) then
      some (.invalidOption key)
    else
      let count := if textOptions.contains key then count + 1 else count
      if textOptions.contains key ∧ ¬ (isString v || isRegExp v) then
        some (.mustBeStringOrRegExp key)
      else if count > 1 then
        some .conflictingMatchers
      else
        validateGo rest count

/-- validateOptions of src/portascrape.js lines 246-279.  Returns `none` when
the options pass and `some e` for the error thrown. -/
def validateOptions (options : RawOptions) : Option VError :=
  validateGo options 0

end Portascrape

namespace Part002

/-- The for-in loop of validateOptions (src/unnamed/part_002 lines 299-321).
Differences from the Portascrape revision: the string check fires only when
`/text/.test(key)` holds (case-sensitive, so it never matches the camelCase
keys exactText / containsText), and `matches` has its own RegExp check; the
counter is incremented after the type checks. -/
def validateGo : RawOptions → Nat → Option VError
  | [], _ => none
  | (key, v) :: rest, count =>
    if ¬ (Portascrape.validKeys.contains key) then
      some (.invalidOption key)
    else if Portascrape.textOptions.contains key ∧
        (strHasSub "text" key ∧ ¬ isString v) then
      some (.mustBeString key)
    else if Portascrape.textOptions.contains key ∧
        (key = "matches" ∧ ¬ isRegExp v) then
      some (.mustBeRegExp key)
    else
      let count :=
        if Portascrape.textOptions.contains key then count + 1 else count
      if count > 1 then
        some .conflictingMatchers
      else
        validateGo rest count

/-- validateOptions of src/unnamed/part_002 lines 288-322. -/
def validateOptions (options : RawOptions) : Option VError :=
  validateGo options 0

end Part002

namespace Part003

/-- The for-in loop of validateOptions (src/unnamed/part_003 lines 328-350).
Identical to the Part002 revision except for its first test, which reads
`if (validKeys.indexOf(key) >= 0)` in the source: the membership test is NOT
negated, so the invalid-option error is thrown precisely for the recognized
keys, and unknown keys fall through unchecked. -/
def validateGo : RawOptions → Nat → Option VError
  | [], _ => none
  | (key, v) :: rest, count =>
    if Portascrape.validKeys.contains key then
      some (.invalidOption key)
    else if Portascrape.textOptions.contains key ∧
        (strHasSub "text" key ∧ ¬ isString v) then
      some (.mustBeString key)
    else if Portascrape.textOptions.contains key ∧
        (key = "matches" ∧ ¬ isRegExp v) then
      some (.mustBeRegExp key)
    else
      let count :=
        if Portascrape.textOptions.contains key then count + 1 else count
      if count > 1 then
        some .conflictingMatchers
      else
        validateGo rest count

/-- validateOptions of src/unnamed/part_003 lines 317-351. -/
def validateOptions (options : RawOptions) : Option VError :=
  validateGo options 0

end Part003

/-!
The wait engine.  A predicate is a zero-argument JavaScript function; since
the library evaluates it repeatedly, we model it as a function of the number
of evaluations already performed: `pred n` is what the (n+1)-th call either
returns or throws.  The observable state of one in-flight wait call is a
WaitState: the promise settlement, which resources are live (the one-shot
timeout timer, the MutationObserver, the pending poll continuation), counters
instrumenting how many setTimeout timers and observers were ever created, and
the exceptions that escaped asynchronous callbacks uncaught.

The event loop is modelled as an environment delivering events: the armed
timeout firing, a scheduled poll continuation (requestAnimationFrame tick or
interval timer) running, or a mutation-observer notification batch.  A guard
on each event mirrors the host: a cleared timer never fires, an unscheduled
poll never runs, a disconnected observer never notifies; mutation
notifications can arrive whenever the observer is connected, since the whole
document is observed.
-/

/-- One evaluation of the user predicate: it returns a value or throws. -/
inductive PredOutcome where
  | ret (v : JSVal)
  | throws (e : String)
deriving DecidableEq, Repr

/-- The predicate, indexed by how many evaluations happened before. -/
abbrev Pred := Nat → PredOutcome

/-- Failure outcomes of a wait call.  `timeout` carries the configured
duration (the source message is "timeout of <ms>ms exceeded waiting for
function to return true"); `predError` is an exception of the user predicate
propagated into the promise; `jsReferenceError` is an engine-level
ReferenceError, carrying the undeclared identifier. -/
inductive WaitError where
  | timeout (ms : Nat)
  | predError (e : String)
  | jsReferenceError (name : String)
deriving DecidableEq, Repr

/-- Settlement state of the promise returned by the wait call. -/
inductive Settle where
  | pending
  | resolved (v : JSVal)
  | rejected (e : WaitError)
deriving DecidableEq, Repr

/-- resolve(v): a settled promise ignores further settlement attempts. -/
def resolveIfPending (s : Settle) (v : JSVal) : Settle :=
  match s with
  | .pending => .resolved v
  | other => other

/-- reject(e): a settled promise ignores further settlement attempts. -/
def rejectIfPending (s : Settle) (e : WaitError) : Settle :=
  match s with
  | .pending => .rejected e
  | other => other

/-- Runtime state of one wait call after the synchronous start and any number
of delivered events. -/
structure WaitState where
  /-- number of evaluations of the user predicate performed so far -/
  evalCount : Nat
  /-- settlement of the returned promise -/
  settled : Settle
  /-- the one-shot timeout timer is armed (created and neither fired nor
  cleared by clearTimeout) -/
  timeoutArmed : Bool
  /-- the MutationObserver is connected (observe called, disconnect not) -/
  observerConnected : Bool
  /-- a poll continuation (RAF callback or interval timer) is pending -/
  pollScheduled : Bool
  /-- instrumentation: setTimeout calls made for this wait -/
  timersCreated : Nat
  /-- instrumentation: MutationObserver constructions for this wait -/
  observersCreated : Nat
  /-- exceptions that escaped an asynchronous callback uncaught -/
  uncaught : List String
deriving DecidableEq, Repr

/-- Events the host event loop can deliver to one in-flight wait. -/
inductive WaitEvent where
  | timerFire
  | pollTick
  | mutationNotify
deriving DecidableEq, Repr

/-- The options record after merging over the defaults: a timeout in
milliseconds and the raw polling value (the engine only ever compares it with
the string "mutation" and tests `typeof polling === "number"`). -/
structure NormOptions where
  timeout : Nat
  polling : JSVal
deriving DecidableEq, Repr

/-- `typeof options.polling === "number"`. -/
def isNumPolling : JSVal → Bool
  | .vnum _ => true
  | _ => false

namespace Part003

/-- The Promise executor of wait (src/unnamed/part_003 lines 51-102), run
synchronously at call time.  Line by line: evaluate the predicate once (a
throw inside the executor rejects the promise); if truthy, resolve with the
value, creating nothing.  Otherwise arm the timeout only when
`options.timeout && options.timeout > 0`.  In mutation mode construct and
connect the observer and return.  Otherwise call poll() synchronously: this
is a second predicate evaluation still inside the executor; truthy resolves
and clears the timeout, a throw propagates into the executor and rejects
(leaving the timeout timer armed), falsy schedules the next check (a
setTimeout for numeric polling, a requestAnimationFrame otherwise). -/
def waitStart (pred : Pred) (o : NormOptions) : WaitState :=
  match pred 0 with
  | .throws e =>
    { evalCount := 1, settled := .rejected (.predError e), timeoutArmed := false,
      observerConnected := false, pollScheduled := false,
      timersCreated := 0, observersCreated := 0, uncaught := [] }
  | .ret v0 =>
    if jsTruthy v0 then
      { evalCount := 1, settled := .resolved v0, timeoutArmed := false,
        observerConnected := false, pollScheduled := false,
        timersCreated := 0, observersCreated := 0, uncaught := [] }
    else
      let armed := decide (0 < o.timeout)
      let timers := if armed then 1 else 0
      if o.polling = .vstr "mutation" then
        { evalCount := 1, settled := .pending, timeoutArmed := armed,
          observerConnected := true, pollScheduled := false,
          timersCreated := timers, observersCreated := 1, uncaught := [] }
      else
        match pred 1 with
        | .throws e =>
          { evalCount := 2, settled := .rejected (.predError e),
            timeoutArmed := armed, observerConnected := false,
            pollScheduled := false, timersCreated := timers,
            observersCreated := 0, uncaught := [] }
        | .ret v1 =>
          if jsTruthy v1 then
            { evalCount := 2, settled := .resolved v1, timeoutArmed := false,
              observerConnected := false, pollScheduled := false,
              timersCreated := timers, observersCreated := 0, uncaught := [] }
          else
            { evalCount := 2, settled := .pending, timeoutArmed := armed,
              observerConnected := false, pollScheduled := true,
              timersCreated := timers + (if isNumPolling o.polling then 1 else 0),
              observersCreated := 0, uncaught := [] }

/-- One event delivered to a wait started by waitStart.

timerFire is the timeout callback (lines 62-69): it only rejects; the
observer is not disconnected and the poll loop is not cancelled there.
pollTick is a scheduled poll() run (lines 86-99): truthy clears the timeout
and resolves; falsy schedules the next check; a predicate throw escapes the
timer or frame callback uncaught, so nothing settles and no next check is
scheduled.  mutationNotify is the observer callback (lines 73-81): truthy
disconnects, clears the timeout and resolves; falsy leaves everything as is;
a throw escapes uncaught and the observer stays connected, so the predicate
runs again on the next notification. -/
def step (pred : Pred) (o : NormOptions) (s : WaitState) : WaitEvent → WaitState
  | .timerFire =>
    if s.timeoutArmed then
      { s with timeoutArmed := false,
               settled := rejectIfPending s.settled (.timeout o.timeout) }
    else s
  | .pollTick =>
    if s.pollScheduled then
      match pred s.evalCount with
      | .throws e =>
        { s with evalCount := s.evalCount + 1, pollScheduled := false,
                 uncaught := s.uncaught ++ [e] }
      | .ret v =>
        if jsTruthy v then
          { s with evalCount := s.evalCount + 1, pollScheduled := false,
                   timeoutArmed := false,
                   settled := resolveIfPending s.settled v }
        else
          { s with evalCount := s.evalCount + 1,
                   timersCreated := s.timersCreated +
                     (if isNumPolling o.polling then 1 else 0) }
    else s
  | .mutationNotify =>
    if s.observerConnected then
      match pred s.evalCount with
      | .throws e =>
        { s with evalCount := s.evalCount + 1, uncaught := s.uncaught ++ [e] }
      | .ret v =>
        if jsTruthy v then
          { s with evalCount := s.evalCount + 1, observerConnected := false,
                   timeoutArmed := false,
                   settled := resolveIfPending s.settled v }
        else
          { s with evalCount := s.evalCount + 1 }
    else s

/-- A wait call followed by a schedule of delivered events. -/
def run (pred : Pred) (o : NormOptions) (evs : List WaitEvent) : WaitState :=
  evs.foldl (step pred o) (waitStart pred o)

end Part003

namespace Portascrape

/-- The Promise executor of waitForFunction (src/portascrape.js lines
55-100).  Differences from the Part003 revision of wait: the timeout timer is
armed unconditionally (lines 62-68), even for a timeout of 0; and the poll
loop body schedules `checkFunction` (lines 92-96), an identifier declared
nowhere in the file, so when the synchronous first poll() finds the predicate
falsy, evaluating `checkFunction` throws a ReferenceError inside the
executor, rejecting the promise with the timeout timer still armed and no
continuation scheduled. -/
def waitStart (pred : Pred) (o : NormOptions) : WaitState :=
  match pred 0 with
  | .throws e =>
    { evalCount := 1, settled := .rejected (.predError e), timeoutArmed := false,
      observerConnected := false, pollScheduled := false,
      timersCreated := 0, observersCreated := 0, uncaught := [] }
  | .ret v0 =>
    if jsTruthy v0 then
      { evalCount := 1, settled := .resolved v0, timeoutArmed := false,
        observerConnected := false, pollScheduled := false,
        timersCreated := 0, observersCreated := 0, uncaught := [] }
    else
      if o.polling = .vstr "mutation" then
        { evalCount := 1, settled := .pending, timeoutArmed := true,
          observerConnected := true, pollScheduled := false,
          timersCreated := 1, observersCreated := 1, uncaught := [] }
      else
        match pred 1 with
        | .throws e =>
          { evalCount := 2, settled := .rejected (.predError e),
            timeoutArmed := true, observerConnected := false,
            pollScheduled := false, timersCreated := 1,
            observersCreated := 0, uncaught := [] }
        | .ret v1 =>
          if jsTruthy v1 then
            { evalCount := 2, settled := .resolved v1, timeoutArmed := false,
              observerConnected := false, pollScheduled := false,
              timersCreated := 1, observersCreated := 0, uncaught := [] }
          else
            { evalCount := 2,
              settled := .rejected (.jsReferenceError "checkFunction"),
              timeoutArmed := true, observerConnected := false,
              pollScheduled := false, timersCreated := 1,
              observersCreated := 0, uncaught := [] }

/-- One event delivered to a waitForFunction call.  The timeout and observer
callbacks are identical to the Part003 revision; a poll continuation is never
successfully scheduled (the scheduling lines throw before scheduling), so
pollTick can never be delivered and is the identity. -/
def step (pred : Pred) (o : NormOptions) (s : WaitState) : WaitEvent → WaitState
  | .timerFire =>
    if s.timeoutArmed then
      { s with timeoutArmed := false,
               settled := rejectIfPending s.settled (.timeout o.timeout) }
    else s
  | .pollTick => s
  | .mutationNotify =>
    if s.observerConnected then
      match pred s.evalCount with
      | .throws e =>
        { s with evalCount := s.evalCount + 1, uncaught := s.uncaught ++ [e] }
      | .ret v =>
        if jsTruthy v then
          { s with evalCount := s.evalCount + 1, observerConnected := false,
                   timeoutArmed := false,
                   settled := resolveIfPending s.settled v }
        else
          { s with evalCount := s.evalCount + 1 }
    else s

/-- A waitForFunction call followed by a schedule of delivered events. -/
def run (pred : Pred) (o : NormOptions) (evs : List WaitEvent) : WaitState :=
  evs.foldl (step pred o) (waitStart pred o)

end Portascrape

/-- A predicate that stays falsy forever (returns null on every call). -/
def constFalsy : Pred := fun _ => .ret .vnull

/-- A predicate that is truthy from the very first call. -/
def constTruthy : Pred := fun _ => .ret (.vnum 1)

/-- A predicate that is falsy once, throws on its second evaluation, and is
falsy afterwards. -/
def predThrowsAt1 : Pred := fun n =>
  match n with
  | 1 => .throws "boom"
  | _ => .ret .vnull

/-- A predicate that throws on its very first evaluation. -/
def predThrows0 : Pred := fun _ => .throws "boom"

/-!
The element locator.  A DOM node is a text node or an element with an ordered
list of child nodes.  `document.querySelectorAll(selector)` returns the
elements matching the selector in document order; since the library treats
the selector as opaque, we model the queried document directly as that list
(`document.querySelector(selector)` is then its head).  `textContent` of a
text node is its character data; of an element, the concatenation of the
textContent of its child nodes in order.
-/

/-- A DOM node: a text node or an element with child nodes in order. -/
inductive DomNode where
  | textNode (content : String)
  | element (tag : String) (children : List DomNode)

mutual
/-- `node.textContent`. -/
def nodeText : DomNode → String
  | .textNode s => s
  | .element _ cs => nodesText cs

/-- Concatenated textContent of a list of nodes. -/
def nodesText : List DomNode → String
  | [] => ""
  | c :: rest => nodeText c ++ nodesText rest
end

/-- `node.nodeType === Node.TEXT_NODE`. -/
def nodeIsText : DomNode → Bool
  | .textNode _ => true
  | .element _ _ => false

/-- `element.childNodes`. -/
def childNodes : DomNode → List DomNode
  | .textNode _ => []
  | .element _ cs => cs

/-- The text-matching fields of the options object as the locator reads
them.  A RegExp value for `matches` is modelled by the predicate its `test`
method computes on the tested string. -/
structure TextMatch where
  exactText : Option String
  containsText : Option String
  matchesRe : Option (String → Bool)

/-- JavaScript truthiness of an optional string option: absent and the empty
string are falsy. -/
def strTruthy : Option String → Bool
  | none => false
  | some t => decide (t ≠ "")

namespace Part003

/-- The search helper of the locator (src/unnamed/part_003 lines 248-258):
walk the childNodes of an element and return the element itself as soon as a
child is a text node fulfilling the predicate, else null. -/
def search (el : DomNode) (p : DomNode → Bool) : Option DomNode :=
  if (childNodes el).any (fun child => nodeIsText child && p child) then
    some el
  else
    none

/-- The predicate the locator $ builds and hands to wait (src/unnamed/
part_003 lines 260-309), as a pure function of the queried document.  `doc`
is `document.querySelectorAll(selector)` in document order.  When no text
matcher is truthy, the result is `document.querySelector(selector)`, i.e. the
head of `doc`.  Otherwise, per element, `result` is assigned by each matcher
branch whose option is truthy, later branches overwriting earlier ones (the
exact-text comparison also runs when only containsText is set, but its result
is then overwritten); the first element whose final `result` is truthy is
returned.  The JavaScript `var result` persists across loop iterations, but
the same branches are assigned on every iteration, so per-element computation
is faithful. -/
def locatePred (doc : List DomNode) (o : TextMatch) : Option DomNode :=
  if ¬ strTruthy o.exactText ∧ ¬ strTruthy o.containsText ∧ ¬ o.matchesRe.isSome then
    doc.head?
  else
    doc.findSome? fun el =>
      let r0 : Option DomNode := none
      let r1 : Option DomNode :=
        if strTruthy o.exactText || strTruthy o.containsText then
          search el fun child =>
            decide (nodeText child ≠ "") &&
              decide (o.exactText = some (jsTrim (nodeText child)))
        else r0
      let r2 : Option DomNode :=
        if strTruthy o.containsText then
          search el fun child =>
            decide (nodeText child ≠ "") && strTruthy o.containsText &&
              strHasSub (o.containsText.getD "") (nodeText child)
        else r1
      let r3 : Option DomNode :=
        if o.matchesRe.isSome then
          search el fun child =>
            decide (nodeText child ≠ "") && o.matchesRe.isSome &&
              (o.matchesRe.getD (fun _ => false)) (jsTrim (nodeText child))
        else r2
      r3

end Part003

namespace Portascrape

/-- The predicate the locator $ builds and hands to waitForFunction
(src/portascrape.js lines 206-238), as a pure function of the queried
document.  With a truthy text matcher set it compares the element's whole
aggregated `textContent` (untrimmed) with the option: strict equality for
exactText, `includes` for containsText, `matches.test` for the regular
expression; the first element satisfying one of the set matchers is
returned.  Without text matchers it is `document.querySelector(selector)`,
the head of `doc`. -/
def locatePred (doc : List DomNode) (o : TextMatch) : Option DomNode :=
  if strTruthy o.exactText || strTruthy o.containsText || o.matchesRe.isSome then
    doc.findSome? fun el =>
      if strTruthy o.exactText && decide (o.exactText = some (nodeText el)) then
        some el
      else if strTruthy o.containsText &&
          strHasSub (o.containsText.getD "") (nodeText el) then
        some el
      else if o.matchesRe.isSome &&
          (o.matchesRe.getD (fun _ => false)) (nodeText el) then
        some el
      else
        none
  else
    doc.head?

end Portascrape

/-- A second definition following the words of the specification, for
comparison with the locator translated from the source: the first element in
document order having a direct child text node whose content, trimmed of
surrounding whitespace, equals the string exactly; none when no queried
element has such a text node. -/
def firstWithExactTextNode (doc : List DomNode) (s : String) : Option DomNode :=
  doc.find? fun el =>
    (childNodes el).any fun child =>
      nodeIsText child && decide (jsTrim (nodeText child) = s)

/-!
Table scraping.  A located table is modelled by its `<tr>` rows in document
order, each row by its cells in document order, a cell knowing whether it is
a `<th>` or a `<td>` and its (aggregated) textContent.  `querySelectorAll`
with "td, th" yields all cells of the row, with "th" only the header cells,
with "td" only the data cells.
-/

/-- A table cell: a th (isHeader) or td, with its textContent. -/
structure TableCell where
  isHeader : Bool
  content : String
deriving DecidableEq, Repr

/-- A table row: its cells in document order. -/
structure TableRow where
  cells : List TableCell
deriving DecidableEq, Repr

namespace Portascrape

/-- The scraping step of $table (src/portascrape.js lines 143-153): map the
rows to the trimmed textContent of their `td, th` cells. -/
def tableData (rows : List TableRow) : List (List String) :=
  rows.map fun row => row.cells.map fun cell => jsTrim cell.content

end Portascrape

namespace Part003

/-- `header.textContent && header.textContent.trim()`: the empty string is
falsy, so it is returned as is; otherwise the trimmed text. -/
def jsAndTrim (t : String) : String :=
  if t = "" then t else jsTrim t

/-- `rowObject[header] = rowData[index]` over `headers.forEach`: pair each
header positionally with the row's data value, `undefined` when the row has
no cell at that index. -/
def assignHeaders : List String → List JSVal → List (String × JSVal)
  | [], _ => []
  | h :: hs, [] => (h, .vundef) :: assignHeaders hs []
  | h :: hs, d :: ds => (h, d) :: assignHeaders hs ds

/-- The scraping step of $tableWithHeaders (src/unnamed/part_003 lines
191-219): the `th` cells of the first row give the headers
(`textContent && trim`, never null for elements, so the `header !== null`
filter keeps every header); each following row maps its `td` cells to
`textContent ? textContent.trim() : null` and is zipped with the headers
positionally, out-of-range indices reading `undefined`.  An empty row list is
returned empty (in the source, `rows[0]` would be undefined there and throw
before producing a value; the claims concern nonempty tables). -/
def tableWithHeadersData (rows : List TableRow) : List (List (String × JSVal)) :=
  match rows with
  | [] => []
  | r0 :: rest =>
    let headers := (r0.cells.filter fun c => c.isHeader).map fun c =>
      jsAndTrim c.content
    rest.map fun row =>
      let rowData := (row.cells.filter fun c => ¬ c.isHeader).map fun c =>
        if c.content = "" then JSVal.vnull else .vstr (jsTrim c.content)
      assignHeaders headers rowData

end Part003

/-- The 2-row, 2-column table of the specification: headers Name and Age,
one data row Alice and 30. -/
def demoTable : List TableRow :=
  [⟨[⟨true, "Name"⟩, ⟨true, "Age"⟩]⟩, ⟨[⟨false, "Alice"⟩, ⟨false, "30"⟩]⟩]

/-- Document with one paragraph whose only child is the text node " x ". -/
def docA : List DomNode := [.element "p" [.textNode " x "]]

/-- Document with a paragraph containing the text node "a" followed by an
element containing the empty text node. -/
def docB : List DomNode :=
  [.element "p" [.textNode "a"], .element "q" [.textNode ""]]

/-!
Theorems.  Shared helper lemmas come first; each claim of the specification
is then settled by one theorem (with a witness when it has hypotheses, and a
counterexample theorem where the claim as stated fails on the code).
-/

/-- Preservation of an invariant along a fold over delivered events. -/
theorem foldl_preserve {σ ε : Type} (f : σ → ε → σ) (P : σ → Prop)
    (hf : ∀ s e, P s → P (f s e)) :
    ∀ (evs : List ε) (s : σ), P s → P (evs.foldl f s)
  | [], _, hs => hs
  | e :: evs, s, hs => foldl_preserve f P hf evs (f s e) (hf s e hs)

/-- findSome? with a guard returning the element itself is find?. -/
theorem findSome?_guard_eq_find? {α : Type} (p : α → Bool) :
    ∀ l : List α, (l.findSome? fun a => if p a then some a else none) = l.find? p
  | [] => rfl
  | a :: l => by
    by_cases h : p a = true <;>
      simp [List.findSome?, List.find?, h, findSome?_guard_eq_find? p l]

/-- C1 counterexample: with frame polling, a never-truthy predicate and a
positive timeout, after the timeout callback rejects the wait, the poll
continuation is still scheduled and delivering the next poll tick evaluates
the predicate once more — the claim that settlement by timeout releases the
polling resources and stops predicate evaluation is false on the code. -/
theorem C1_counterexample :
    (Part003.run constFalsy ⟨5, .vstr "raf"⟩ [.timerFire]).settled =
      .rejected (.timeout 5) ∧
    (Part003.run constFalsy ⟨5, .vstr "raf"⟩ [.timerFire]).pollScheduled = true ∧
    (Part003.run constFalsy ⟨5, .vstr "raf"⟩ [.timerFire, .pollTick]).evalCount =
      (Part003.run constFalsy ⟨5, .vstr "raf"⟩ [.timerFire]).evalCount + 1 := by
  decide

/-- C2 counterexample: the waitForFunction revision (src/portascrape.js)
arms the timeout timer unconditionally, so with timeout 0 and mutation
polling a timer is armed at start and its firing rejects the wait with the
timeout failure — the claim that a 0 timeout arms no timer and never rejects
by timeout is false on that revision. -/
theorem C2_counterexample :
    (Portascrape.waitStart constFalsy ⟨0, .vstr "mutation"⟩).timeoutArmed = true ∧
    (Portascrape.waitStart constFalsy ⟨0, .vstr "mutation"⟩).timersCreated = 1 ∧
    (Portascrape.run constFalsy ⟨0, .vstr "mutation"⟩ [.timerFire]).settled =
      .rejected (.timeout 0) := by
  decide

/-- C3 counterexample: under mutation polling, a predicate that throws on its
second evaluation (the first mutation re-check) does not settle the wait: the
error escapes uncaught, the promise stays pending, the observer stays
connected, and a further mutation notification evaluates the predicate again
— the claim that a throwing predicate settles the wait immediately and is
never retried is false on the code. -/
theorem C3_counterexample :
    (Part003.run predThrowsAt1 ⟨50, .vstr "mutation"⟩ [.mutationNotify]).settled =
      .pending ∧
    (Part003.run predThrowsAt1 ⟨50, .vstr "mutation"⟩ [.mutationNotify]).uncaught =
      ["boom"] ∧
    (Part003.run predThrowsAt1 ⟨50, .vstr "mutation"⟩
        [.mutationNotify]).observerConnected = true ∧
    (Part003.run predThrowsAt1 ⟨50, .vstr "mutation"⟩
        [.mutationNotify, .mutationNotify]).evalCount = 3 := by
  decide

/-- C4 counterexample: the locator of src/portascrape.js compares the
element's aggregated textContent, untrimmed, so it misses the paragraph whose
only text node is " x " when asked for exactText "x", while the property
claimed (first element with a direct child text node trimming to the string)
selects it; and for the empty exact string the Part003 locator treats the
matcher as unset and returns the first selector match instead of the first
element with an empty text node. -/
theorem C4_counterexample :
    Portascrape.locatePred docA ⟨some "x", none, none⟩ = none ∧
    firstWithExactTextNode docA "x" = some (.element "p" [.textNode " x "]) ∧
    Portascrape.locatePred docA ⟨some "x", none, none⟩ ≠
      firstWithExactTextNode docA "x" ∧
    Part003.locatePred docB ⟨some "", none, none⟩ =
      some (.element "p" [.textNode "a"]) ∧
    firstWithExactTextNode docB "" = some (.element "q" [.textNode ""]) := by
  refine ⟨rfl, rfl, ?_, rfl, rfl⟩
  intro hcontra
  rw [show Portascrape.locatePred docA ⟨some "x", none, none⟩ = none from rfl,
      show firstWithExactTextNode docA "x" =
        some (.element "p" [.textNode " x "]) from rfl] at hcontra
  exact Option.noConfusion hcontra

/-- C6: the matcher type checks of the claim are not implemented by the
cited validators.  In the part_002 revision the string check is guarded by
the case-sensitive regular expression test of "text" against the key, which
matches neither "exactText" nor "containsText", so a RegExp — or even a
number — supplied as exactText passes validation (although a string supplied
as matches is rejected there); the portascrape.js revision accepts any
string or RegExp for every matcher key, so both a RegExp exactText and a
string matches pass. -/
theorem C6_type_checks_bypassed :
    Part002.validateOptions [("exactText", .vregexp "foo")] = none ∧
    Part002.validateOptions [("exactText", .vnum 42)] = none ∧
    Part002.validateOptions [("matches", .vstr "x")] =
      some (.mustBeRegExp "matches") ∧
    Portascrape.validateOptions [("exactText", .vregexp "foo")] = none ∧
    Portascrape.validateOptions [("matches", .vstr "x")] = none ∧
    strHasSub "text" "exactText" = false ∧
    strHasSub "text" "containsText" = false := by
  decide

/-- C7: the part_003 revision inverts the valid-key membership test, so its
validator rejects the recognized keys — including the timeout and polling
defaults merged into every wait call — with the invalid-option error, and
silently accepts an unknown key; the portascrape.js revision behaves as the
claim states on the same inputs. -/
theorem C7_validator_inverted :
    Part003.validateOptions [("timeout", .vnum 10000), ("polling", .vstr "raf")] =
      some (.invalidOption "timeout") ∧
    Part003.validateOptions [("bogus", .vnum 1)] = none ∧
    Portascrape.validateOptions [("bogus", .vnum 1)] =
      some (.invalidOption "bogus") ∧
    Portascrape.validateOptions
      [("timeout", .vnum 10000), ("polling", .vstr "raf")] = none := by
  decide

/-- C9: on the 2-row, 2-column table with headers Name and Age and data row
Alice and 30, the headers variant yields the mapping Name to Alice and Age
to 30, and the plain variant the 2D array; in general the zipped row object
has exactly the headers as keys, in order, and its values are the row's data
values positionally, padded with undefined where a ragged row has no cell
under a header. -/
theorem C9_table_scraping :
    Part003.tableWithHeadersData demoTable =
      [[("Name", JSVal.vstr "Alice"), ("Age", JSVal.vstr "30")]] ∧
    Portascrape.tableData demoTable = [["Name", "Age"], ["Alice", "30"]] ∧
    (∀ hs ds, (Part003.assignHeaders hs ds).map Prod.fst = hs) ∧
    (∀ hs ds, (Part003.assignHeaders hs ds).map Prod.snd =
      ds.take hs.length ++ List.replicate (hs.length - ds.length) JSVal.vundef) := by
  refine ⟨by decide, by decide, ?_, ?_⟩
  · intro hs
    induction hs with
    | nil => intro ds; rfl
    | cons h t ih =>
      intro ds
      cases ds with
      | nil => simpa [Part003.assignHeaders] using ih []
      | cons d ds => simpa [Part003.assignHeaders] using ih ds
  · intro hs
    induction hs with
    | nil => intro ds; simp [Part003.assignHeaders]
    | cons h t ih =>
      intro ds
      cases ds with
      | nil => simpa [Part003.assignHeaders, List.replicate_succ] using ih []
      | cons d ds => simpa [Part003.assignHeaders] using ih ds

/-- C5: in both revisions of the engine, a predicate that is truthy on its
first, synchronous evaluation makes the wait resolve immediately with that
value, and no timer, no poll continuation and no mutation observer is ever
created for the call. -/
theorem C5_immediate_resolve (pred : Pred) (o : NormOptions) (v : JSVal)
    (h : pred 0 = .ret v) (hv : jsTruthy v = true) :
    (Part003.waitStart pred o).settled = .resolved v ∧
    (Part003.waitStart pred o).timersCreated = 0 ∧
    (Part003.waitStart pred o).observersCreated = 0 ∧
    (Part003.waitStart pred o).pollScheduled = false ∧
    (Portascrape.waitStart pred o).settled = .resolved v ∧
    (Portascrape.waitStart pred o).timersCreated = 0 ∧
    (Portascrape.waitStart pred o).observersCreated = 0 := by
  unfold Part003.waitStart Portascrape.waitStart
  rw [h]
  simp [hv]

/-- C5 witness: the constantly truthy predicate with the default options. -/
theorem C5_immediate_resolve_witness :
    (Part003.waitStart constTruthy ⟨10000, .vstr "raf"⟩).settled =
      .resolved (.vnum 1) ∧
    (Part003.waitStart constTruthy ⟨10000, .vstr "raf"⟩).timersCreated = 0 ∧
    (Part003.waitStart constTruthy ⟨10000, .vstr "raf"⟩).observersCreated = 0 ∧
    (Part003.waitStart constTruthy ⟨10000, .vstr "raf"⟩).pollScheduled = false ∧
    (Portascrape.waitStart constTruthy ⟨10000, .vstr "raf"⟩).settled =
      .resolved (.vnum 1) ∧
    (Portascrape.waitStart constTruthy ⟨10000, .vstr "raf"⟩).timersCreated = 0 ∧
    (Portascrape.waitStart constTruthy ⟨10000, .vstr "raf"⟩).observersCreated = 0 :=
  C5_immediate_resolve constTruthy ⟨10000, .vstr "raf"⟩ (.vnum 1) rfl (by decide)

/-- C2 (amended): for the wait engine of the part_003 revision, a wait whose
normalized timeout is 0 and whose predicate never becomes truthy arms no
timeout timer and stays pending under every schedule of delivered events, so
it never rejects due to timeout; the portascrape.js revision instead arms
the timer unconditionally and can reject (C2 counterexample). -/
theorem C2_amended (pred : Pred) (o : NormOptions)
    (hfalsy : ∀ n, ∃ v, pred n = .ret v ∧ jsTruthy v = false)
    (h0 : o.timeout = 0) :
    ∀ evs : List WaitEvent,
      (Part003.run pred o evs).settled = .pending ∧
      (Part003.run pred o evs).timeoutArmed = false := by
  have hstep : ∀ (s : WaitState) (ev : WaitEvent),
      (s.settled = .pending ∧ s.timeoutArmed = false) →
      ((Part003.step pred o s ev).settled = .pending ∧
       (Part003.step pred o s ev).timeoutArmed = false) := by
    intro s ev hP
    obtain ⟨h1, h2⟩ := hP
    cases ev with
    | timerFire =>
      simp only [Part003.step, h2]
      exact ⟨h1, h2⟩
    | pollTick =>
      simp only [Part003.step]
      by_cases hsched : s.pollScheduled = true
      · obtain ⟨v, hv, hvf⟩ := hfalsy s.evalCount
        simp [hsched, hv, hvf, h1, h2]
      · simp [hsched, h1, h2]
    | mutationNotify =>
      simp only [Part003.step]
      by_cases hobs : s.observerConnected = true
      · obtain ⟨v, hv, hvf⟩ := hfalsy s.evalCount
        simp [hobs, hv, hvf, h1, h2]
      · simp [hobs, h1, h2]
  have hstart : (Part003.waitStart pred o).settled = .pending ∧
      (Part003.waitStart pred o).timeoutArmed = false := by
    obtain ⟨v0, hv0, hf0⟩ := hfalsy 0
    obtain ⟨v1, hv1, hf1⟩ := hfalsy 1
    unfold Part003.waitStart
    rw [hv0]
    by_cases hp : o.polling = .vstr "mutation"
    · simp [hf0, h0, hp]
    · rw [hv1]
      simp [hf0, hf1, h0, hp]
  intro evs
  exact foldl_preserve (Part003.step pred o)
    (fun s => s.settled = .pending ∧ s.timeoutArmed = false)
    hstep evs (Part003.waitStart pred o) hstart

/-- C2 witness: the constantly falsy predicate, timeout 0, frame polling,
after a schedule delivering a stray timer fire and a poll tick. -/
theorem C2_amended_witness :
    (Part003.run constFalsy ⟨0, .vstr "raf"⟩ [.timerFire, .pollTick]).settled =
      .pending ∧
    (Part003.run constFalsy ⟨0, .vstr "raf"⟩
        [.timerFire, .pollTick]).timeoutArmed = false :=
  C2_amended constFalsy ⟨0, .vstr "raf"⟩ (fun _ => ⟨.vnull, rfl, rfl⟩) rfl
    [.timerFire, .pollTick]

/-- C1 (amended): settlement by timeout rejection does NOT release the
polling resources of the part_003 wait engine.  For every positive timeout
and never-truthy predicate, under every schedule of delivered events: with
any non-mutation polling value the poll continuation remains scheduled, the
wait is pending or timeout-rejected, and delivering one more poll tick
evaluates the predicate again; with mutation polling the observer remains
connected and one more mutation notification evaluates the predicate again.
Only successful resolution disconnects the observer or stops the loop. -/
theorem C1_amended (pred : Pred) (t : Nat) (p : JSVal)
    (hfalsy : ∀ n, ∃ v, pred n = .ret v ∧ jsTruthy v = false)
    (ht : 0 < t) (hp : p ≠ .vstr "mutation") :
    ∀ evs : List WaitEvent,
      ((Part003.run pred ⟨t, p⟩ evs).pollScheduled = true ∧
       ((Part003.run pred ⟨t, p⟩ evs).settled = .pending ∨
        (Part003.run pred ⟨t, p⟩ evs).settled = .rejected (.timeout t)) ∧
       (Part003.step pred ⟨t, p⟩ (Part003.run pred ⟨t, p⟩ evs)
          .pollTick).evalCount = (Part003.run pred ⟨t, p⟩ evs).evalCount + 1) ∧
      ((Part003.run pred ⟨t, .vstr "mutation"⟩ evs).observerConnected = true ∧
       ((Part003.run pred ⟨t, .vstr "mutation"⟩ evs).settled = .pending ∨
        (Part003.run pred ⟨t, .vstr "mutation"⟩ evs).settled =
          .rejected (.timeout t)) ∧
       (Part003.step pred ⟨t, .vstr "mutation"⟩
          (Part003.run pred ⟨t, .vstr "mutation"⟩ evs) .mutationNotify).evalCount =
         (Part003.run pred ⟨t, .vstr "mutation"⟩ evs).evalCount + 1) := by
  have hsettle : ∀ (o : NormOptions) (s : WaitState) (ev : WaitEvent),
      o.timeout = t →
      (s.settled = .pending ∨ s.settled = .rejected (.timeout t)) →
      ((Part003.step pred o s ev).settled = .pending ∨
       (Part003.step pred o s ev).settled = .rejected (.timeout t)) ∧
      (Part003.step pred o s ev).pollScheduled = s.pollScheduled ∧
      (Part003.step pred o s ev).observerConnected = s.observerConnected := by
    intro o s ev hot hP
    cases ev with
    | timerFire =>
      simp only [Part003.step]
      by_cases harm : s.timeoutArmed = true
      · rcases hP with h | h <;>
          simp [harm, h, rejectIfPending, hot]
      · simp [harm, hP]
    | pollTick =>
      simp only [Part003.step]
      by_cases hsched : s.pollScheduled = true
      · obtain ⟨v, hv, hvf⟩ := hfalsy s.evalCount
        simp [hsched, hv, hvf, hP]
      · simp [hsched, hP]
    | mutationNotify =>
      simp only [Part003.step]
      by_cases hobs : s.observerConnected = true
      · obtain ⟨v, hv, hvf⟩ := hfalsy s.evalCount
        simp [hobs, hv, hvf, hP]
      · simp [hobs, hP]
  obtain ⟨v0, hv0, hf0⟩ := hfalsy 0
  obtain ⟨v1, hv1, hf1⟩ := hfalsy 1
  have hstartRaf : (Part003.waitStart pred ⟨t, p⟩).pollScheduled = true ∧
      ((Part003.waitStart pred ⟨t, p⟩).settled = .pending ∨
       (Part003.waitStart pred ⟨t, p⟩).settled = .rejected (.timeout t)) := by
    unfold Part003.waitStart
    rw [hv0, hv1]
    simp [hf0, hf1, hp]
  have hstartMut :
      (Part003.waitStart pred ⟨t, .vstr "mutation"⟩).observerConnected = true ∧
      ((Part003.waitStart pred ⟨t, .vstr "mutation"⟩).settled = .pending ∨
       (Part003.waitStart pred ⟨t, .vstr "mutation"⟩).settled =
         .rejected (.timeout t)) := by
    unfold Part003.waitStart
    rw [hv0]
    simp [hf0]
  intro evs
  have hinvRaf : (Part003.run pred ⟨t, p⟩ evs).pollScheduled = true ∧
      ((Part003.run pred ⟨t, p⟩ evs).settled = .pending ∨
       (Part003.run pred ⟨t, p⟩ evs).settled = .rejected (.timeout t)) :=
    foldl_preserve (Part003.step pred ⟨t, p⟩)
      (fun s => s.pollScheduled = true ∧
        (s.settled = .pending ∨ s.settled = .rejected (.timeout t)))
      (by
        intro s ev hq
        obtain ⟨hq, hP⟩ := hq
        obtain ⟨hP2, hps, _⟩ := hsettle ⟨t, p⟩ s ev rfl hP
        exact ⟨hps.trans hq, hP2⟩)
      evs (Part003.waitStart pred ⟨t, p⟩) hstartRaf
  have hinvMut : (Part003.run pred ⟨t, .vstr "mutation"⟩ evs).observerConnected = true ∧
      ((Part003.run pred ⟨t, .vstr "mutation"⟩ evs).settled = .pending ∨
       (Part003.run pred ⟨t, .vstr "mutation"⟩ evs).settled = .rejected (.timeout t)) :=
    foldl_preserve (Part003.step pred ⟨t, .vstr "mutation"⟩)
      (fun s => s.observerConnected = true ∧
        (s.settled = .pending ∨ s.settled = .rejected (.timeout t)))
      (by
        intro s ev hq
        obtain ⟨hq, hP⟩ := hq
        obtain ⟨hP2, _, hoc⟩ := hsettle ⟨t, .vstr "mutation"⟩ s ev rfl hP
        exact ⟨hoc.trans hq, hP2⟩)
      evs (Part003.waitStart pred ⟨t, .vstr "mutation"⟩) hstartMut
  refine ⟨⟨hinvRaf.1, hinvRaf.2, ?_⟩, ⟨hinvMut.1, hinvMut.2, ?_⟩⟩
  · obtain ⟨v, hv, hvf⟩ := hfalsy (Part003.run pred ⟨t, p⟩ evs).evalCount
    simp [Part003.step, hinvRaf.1, hv, hvf]
  · obtain ⟨v, hv, hvf⟩ :=
      hfalsy (Part003.run pred ⟨t, .vstr "mutation"⟩ evs).evalCount
    simp [Part003.step, hinvMut.1, hv, hvf]

/-- C1 witness: concrete positive timeout, frame polling value, constantly
falsy predicate and the schedule that fires the timeout. -/
theorem C1_amended_witness :
    ((Part003.run constFalsy ⟨5, .vstr "raf"⟩ [.timerFire]).pollScheduled = true ∧
     ((Part003.run constFalsy ⟨5, .vstr "raf"⟩ [.timerFire]).settled = .pending ∨
      (Part003.run constFalsy ⟨5, .vstr "raf"⟩ [.timerFire]).settled =
        .rejected (.timeout 5)) ∧
     (Part003.step constFalsy ⟨5, .vstr "raf"⟩
        (Part003.run constFalsy ⟨5, .vstr "raf"⟩ [.timerFire]) .pollTick).evalCount =
       (Part003.run constFalsy ⟨5, .vstr "raf"⟩ [.timerFire]).evalCount + 1) ∧
    ((Part003.run constFalsy ⟨5, .vstr "mutation"⟩ [.timerFire]).observerConnected =
       true ∧
     ((Part003.run constFalsy ⟨5, .vstr "mutation"⟩ [.timerFire]).settled =
        .pending ∨
      (Part003.run constFalsy ⟨5, .vstr "mutation"⟩ [.timerFire]).settled =
        .rejected (.timeout 5)) ∧
     (Part003.step constFalsy ⟨5, .vstr "mutation"⟩
        (Part003.run constFalsy ⟨5, .vstr "mutation"⟩ [.timerFire])
        .mutationNotify).evalCount =
       (Part003.run constFalsy ⟨5, .vstr "mutation"⟩ [.timerFire]).evalCount + 1) :=
  C1_amended constFalsy 5 (.vstr "raf") (fun _ => ⟨.vnull, rfl, rfl⟩)
    (by decide) (by decide) [.timerFire]

/-- C3 (amended): a predicate throw during the synchronous evaluations at
call time settles the wait immediately — a throw on the initial check
rejects with that error before any timer or observer is created, and a throw
on the synchronous first poll of a non-mutation wait also rejects — but a
throw during an asynchronously scheduled re-check does not settle the wait:
the error escapes uncaught, the promise stays pending, under mutation
polling the observer stays connected (so the predicate will be evaluated
again on the next notification), and under frame or interval polling no
further check is scheduled. -/
theorem C3_amended (pred : Pred) (o : NormOptions) (e : String) (s : WaitState) :
    (pred 0 = .throws e →
      (Part003.waitStart pred o).settled = .rejected (.predError e) ∧
      (Part003.waitStart pred o).timersCreated = 0 ∧
      (Part003.waitStart pred o).observersCreated = 0) ∧
    ((∃ v, pred 0 = .ret v ∧ jsTruthy v = false) → pred 1 = .throws e →
      o.polling ≠ .vstr "mutation" →
      (Part003.waitStart pred o).settled = .rejected (.predError e)) ∧
    (s.settled = .pending → s.observerConnected = true →
      pred s.evalCount = .throws e →
      (Part003.step pred o s .mutationNotify).settled = .pending ∧
      (Part003.step pred o s .mutationNotify).observerConnected = true ∧
      (Part003.step pred o s .mutationNotify).uncaught = s.uncaught ++ [e]) ∧
    (s.settled = .pending → s.pollScheduled = true →
      pred s.evalCount = .throws e →
      (Part003.step pred o s .pollTick).settled = .pending ∧
      (Part003.step pred o s .pollTick).pollScheduled = false ∧
      (Part003.step pred o s .pollTick).uncaught = s.uncaught ++ [e]) := by
  refine ⟨?_, ?_, ?_, ?_⟩
  · intro h0
    unfold Part003.waitStart
    rw [h0]
    exact ⟨rfl, rfl, rfl⟩
  · rintro ⟨v, hv0, hf0⟩ h1 hpm
    unfold Part003.waitStart
    rw [hv0]
    simp [hf0, hpm, h1]
  · intro hpend hobs hthrow
    simp only [Part003.step]
    simp [hobs, hthrow, hpend]
  · intro hpend hsched hthrow
    simp only [Part003.step]
    simp [hsched, hthrow, hpend]

/-- C3 witness: a predicate throwing first, and one that throws on its
second evaluation, at concrete states under the default options. -/
theorem C3_amended_witness :
    ((Part003.waitStart predThrows0 ⟨10000, .vstr "raf"⟩).settled =
       .rejected (.predError "boom") ∧
     (Part003.waitStart predThrows0 ⟨10000, .vstr "raf"⟩).timersCreated = 0 ∧
     (Part003.waitStart predThrows0 ⟨10000, .vstr "raf"⟩).observersCreated = 0) ∧
    ((Part003.waitStart predThrowsAt1 ⟨10000, .vstr "raf"⟩).settled =
       .rejected (.predError "boom")) ∧
    ((Part003.step predThrowsAt1 ⟨10000, .vstr "mutation"⟩
        ⟨1, .pending, true, true, false, 1, 1, []⟩ .mutationNotify).settled =
       .pending ∧
     (Part003.step predThrowsAt1 ⟨10000, .vstr "mutation"⟩
        ⟨1, .pending, true, true, false, 1, 1, []⟩
        .mutationNotify).observerConnected = true ∧
     (Part003.step predThrowsAt1 ⟨10000, .vstr "mutation"⟩
        ⟨1, .pending, true, true, false, 1, 1, []⟩ .mutationNotify).uncaught =
       [] ++ ["boom"]) ∧
    ((Part003.step predThrowsAt1 ⟨10000, .vstr "raf"⟩
        ⟨1, .pending, true, false, true, 1, 0, []⟩ .pollTick).settled = .pending ∧
     (Part003.step predThrowsAt1 ⟨10000, .vstr "raf"⟩
        ⟨1, .pending, true, false, true, 1, 0, []⟩ .pollTick).pollScheduled =
       false ∧
     (Part003.step predThrowsAt1 ⟨10000, .vstr "raf"⟩
        ⟨1, .pending, true, false, true, 1, 0, []⟩ .pollTick).uncaught =
       [] ++ ["boom"]) :=
  ⟨(C3_amended predThrows0 ⟨10000, .vstr "raf"⟩ "boom"
      ⟨1, .pending, true, true, false, 1, 1, []⟩).1 rfl,
   (C3_amended predThrowsAt1 ⟨10000, .vstr "raf"⟩ "boom"
      ⟨1, .pending, true, true, false, 1, 1, []⟩).2.1
     ⟨.vnull, rfl, rfl⟩ rfl (by decide),
   (C3_amended predThrowsAt1 ⟨10000, .vstr "mutation"⟩ "boom"
      ⟨1, .pending, true, true, false, 1, 1, []⟩).2.2.1 rfl rfl rfl,
   (C3_amended predThrowsAt1 ⟨10000, .vstr "raf"⟩ "boom"
      ⟨1, .pending, true, false, true, 1, 0, []⟩).2.2.2 rfl rfl rfl⟩

/-- C4 (amended): scoped to the part_003 locator and a nonempty exact
string, the claim holds — for every queried document and every nonempty
string s, the locator predicate with exactText s returns exactly the first
element in document order that has a direct child text node whose content,
trimmed of surrounding whitespace, equals s, and no result when no element
has one.  (The portascrape.js locator instead compares aggregated untrimmed
textContent, and exactText set to the empty string is treated as unset: C4
counterexample.) -/
theorem C4_amended (doc : List DomNode) (s : String) (h : s ≠ "") :
    Part003.locatePred doc ⟨some s, none, none⟩ = firstWithExactTextNode doc s := by
  unfold Part003.locatePred firstWithExactTextNode Part003.search
  rw [if_neg (by simp [strTruthy, h])]
  rw [← findSome?_guard_eq_find?]
  congr 1
  funext el
  simp [strTruthy, h]
  refine if_congr ⟨?_, ?_⟩ rfl rfl
  · rintro ⟨x, hx, h1, _, h3⟩
    exact ⟨x, hx, h1, h3.symm⟩
  · rintro ⟨x, hx, h1, h2⟩
    refine ⟨x, hx, h1, ?_, h2.symm⟩
    intro hxe
    apply h
    rw [← h2, hxe]
    rfl

/-- C4 witness: the document with the paragraph containing " x " and the
nonempty exact string "x". -/
theorem C4_amended_witness :
    Part003.locatePred docA ⟨some "x", none, none⟩ =
      firstWithExactTextNode docA "x" ∧
    firstWithExactTextNode docA "x" = some (.element "p" [.textNode " x "]) :=
  ⟨C4_amended docA "x" (by decide), rfl⟩

/-- C8 counterexample: with two distinct matcher keys both present but the
first one carrying an ill-typed value (a number), validation of the
portascrape.js revision fails with the per-key type error, not with the
conflicting-matcher error, so the failure kind is not independent of the
values as the claim states. -/
theorem C8_counterexample :
    Portascrape.validateOptions [("exactText", .vnum 1), ("containsText", .vstr "x")] =
      some (.mustBeStringOrRegExp "exactText") ∧
    Portascrape.validateOptions [("exactText", .vnum 1), ("containsText", .vstr "x")] ≠
      some .conflictingMatchers := by
  decide

/-- C8 (amended): for every pairing of two distinct matcher keys from
exactText, containsText, matches, both present, validation of the
portascrape.js revision always fails; when both values pass the per-key type
check (string or RegExp), the failure is the conflicting-matcher error, and
otherwise a type error is raised first.  (In the part_003 revision the
inverted key check makes every such pairing fail with the invalid-option
error instead.) -/
theorem C8_amended (k1 k2 : String) (v1 v2 : JSVal)
    (h1 : k1 ∈ Portascrape.textOptions) (h2 : k2 ∈ Portascrape.textOptions)
    (hne : k1 ≠ k2)
    (ht1 : isString v1 = true ∨ isRegExp v1 = true)
    (ht2 : isString v2 = true ∨ isRegExp v2 = true) :
    Portascrape.validateOptions [(k1, v1), (k2, v2)] =
      some .conflictingMatchers ∧
    ∀ w1 w2 : JSVal, Portascrape.validateOptions [(k1, w1), (k2, w2)] ≠ none := by
  simp only [Portascrape.textOptions, List.mem_cons, List.mem_singleton,
    List.not_mem_nil, or_false] at h1 h2
  have main : ∀ w1 w2 : JSVal,
      (isString w1 || isRegExp w1) = true → (isString w2 || isRegExp w2) = true →
      Portascrape.validateOptions [(k1, w1), (k2, w2)] =
        some .conflictingMatchers := by
    intro w1 w2 hw1 hw2
    rcases h1 with rfl | rfl | rfl <;> rcases h2 with rfl | rfl | rfl <;>
      first
        | exact absurd rfl hne
        | simp [Portascrape.validateOptions, Portascrape.validateGo,
            Portascrape.validKeys, Portascrape.textOptions, hw1, hw2]
  refine ⟨?_, ?_⟩
  · rcases ht1 with h | h <;> rcases ht2 with h' | h' <;>
      exact main v1 v2 (by simp [h]) (by simp [h'])
  · intro w1 w2
    by_cases hw1 : (isString w1 || isRegExp w1) = true
    · by_cases hw2 : (isString w2 || isRegExp w2) = true
      · rw [main w1 w2 hw1 hw2]
        exact Option.noConfusion
      · rcases h1 with rfl | rfl | rfl <;> rcases h2 with rfl | rfl | rfl <;>
          first
            | exact absurd rfl hne
            | simp [Portascrape.validateOptions, Portascrape.validateGo,
                Portascrape.validKeys, Portascrape.textOptions, hw1, hw2]
    · rcases h1 with rfl | rfl | rfl <;> rcases h2 with rfl | rfl | rfl <;>
        first
          | exact absurd rfl hne
          | simp [Portascrape.validateOptions, Portascrape.validateGo,
              Portascrape.validKeys, Portascrape.textOptions, hw1]

/-- C8 witness: the pairing exactText (a string) with matches (a RegExp),
and its failure on arbitrary values at a concrete instance. -/
theorem C8_amended_witness :
    Portascrape.validateOptions [("exactText", .vstr "a"), ("matches", .vregexp "x")] =
      some .conflictingMatchers ∧
    ∀ w1 w2 : JSVal,
      Portascrape.validateOptions [("exactText", w1), ("matches", w2)] ≠ none :=
  C8_amended "exactText" "matches" (.vstr "a") (.vregexp "x")
    (by simp [Portascrape.textOptions]) (by simp [Portascrape.textOptions])
    (by decide) (Or.inl rfl) (Or.inr rfl)

/-- C10: the polling option is never itself validated — the validator
accepts any value under the polling key — and a polling value that is
neither the string "mutation" nor a number falls through to the
requestAnimationFrame branch of both engine revisions: a wait with such a
polling string behaves identically, state for state and event for event, to
one with polling "raf". -/
theorem C10_polling_fallthrough (s : String) (hs : s ≠ "mutation") (t : Nat)
    (pred : Pred) (v : JSVal) (st : WaitState) (ev : WaitEvent)
    (evs : List WaitEvent) :
    Portascrape.validateOptions [("timeout", .vnum 10000), ("polling", v)] = none ∧
    Part003.waitStart pred ⟨t, .vstr s⟩ = Part003.waitStart pred ⟨t, .vstr "raf"⟩ ∧
    Part003.step pred ⟨t, .vstr s⟩ st ev = Part003.step pred ⟨t, .vstr "raf"⟩ st ev ∧
    Part003.run pred ⟨t, .vstr s⟩ evs = Part003.run pred ⟨t, .vstr "raf"⟩ evs ∧
    Portascrape.waitStart pred ⟨t, .vstr s⟩ =
      Portascrape.waitStart pred ⟨t, .vstr "raf"⟩ := by
  have hstart : Part003.waitStart pred ⟨t, .vstr s⟩ =
      Part003.waitStart pred ⟨t, .vstr "raf"⟩ := by
    unfold Part003.waitStart
    cases h0 : pred 0 with
    | throws e => rfl
    | ret v0 =>
      by_cases hv0 : jsTruthy v0 = true
      · simp [hv0]
      · cases h1 : pred 1 with
        | throws e => simp [hv0, hs]
        | ret v1 =>
          by_cases hv1 : jsTruthy v1 = true <;>
            simp [hv0, hv1, hs, h1, isNumPolling]
  have hstep : Part003.step pred ⟨t, .vstr s⟩ =
      Part003.step pred ⟨t, .vstr "raf"⟩ := by
    funext st ev
    cases ev <;> rfl
  have hwf : Portascrape.waitStart pred ⟨t, .vstr s⟩ =
      Portascrape.waitStart pred ⟨t, .vstr "raf"⟩ := by
    unfold Portascrape.waitStart
    cases h0 : pred 0 with
    | throws e => rfl
    | ret v0 =>
      by_cases hv0 : jsTruthy v0 = true
      · simp [hv0]
      · cases h1 : pred 1 with
        | throws e => simp [hv0, hs]
        | ret v1 =>
          by_cases hv1 : jsTruthy v1 = true <;>
            simp [hv0, hv1, hs, h1, isNumPolling]
  refine ⟨rfl, hstart, ?_, ?_, hwf⟩
  · rw [hstep]
  · unfold Part003.run
    rw [hstart, hstep]

/-- C10 witness: the misspelled polling value "mutations", a boolean under
the polling key for the validator, the constantly falsy predicate, a
concrete state, event and schedule. -/
theorem C10_polling_fallthrough_witness :
    Portascrape.validateOptions [("timeout", .vnum 10000), ("polling", .vbool true)] =
      none ∧
    Part003.waitStart constFalsy ⟨7, .vstr "mutations"⟩ =
      Part003.waitStart constFalsy ⟨7, .vstr "raf"⟩ ∧
    Part003.step constFalsy ⟨7, .vstr "mutations"⟩
        ⟨2, .pending, true, false, true, 1, 0, []⟩ .pollTick =
      Part003.step constFalsy ⟨7, .vstr "raf"⟩
        ⟨2, .pending, true, false, true, 1, 0, []⟩ .pollTick ∧
    Part003.run constFalsy ⟨7, .vstr "mutations"⟩ [.pollTick, .timerFire] =
      Part003.run constFalsy ⟨7, .vstr "raf"⟩ [.pollTick, .timerFire] ∧
    Portascrape.waitStart constFalsy ⟨7, .vstr "mutations"⟩ =
      Portascrape.waitStart constFalsy ⟨7, .vstr "raf"⟩ :=
  C10_polling_fallthrough "mutations" (by decide) 7 constFalsy (.vbool true)
    ⟨2, .pending, true, false, true, 1, 0, []⟩ .pollTick [.pollTick, .timerFire]
